import Mathlib

/-!
Verification development for the LJClang native support layer
(ljclang_support.c, ljclang_support.cpp, ljposix.c, ljposix.cpp).

Part 1: the visitor bridge (ljclang_support.c and the pointer-passing
variant in ljclang_support.cpp).  The libclang traversal entry point
`clang_visitChildren` is external to the repository; it is modelled from
its documented tri-state contract, which the spec restates in section 4.1.
-/

namespace LJClang

/-- The tri-state continuation value `enum CXChildVisitResult` of libclang:
`Break` aborts the whole traversal, `Continue` skips the children of the
current node, `Recurse` descends into them. -/
inductive CXChildVisitResult where
  | Break
  | Continue
  | Recurse
deriving DecidableEq, Repr

/-- A cursor, reduced to what the bridge code inspects: its `kind` field
(`cursor.kind` in ljclang_support.c line 100) and an identity tag so that
distinct nodes of a tree can be told apart. -/
structure CXCursor where
  kind : Nat
  id : Nat
deriving DecidableEq, Repr

/-- The opaque `CXClientData` pointer handed to a callback: `none` models
the C `NULL` pointer, `some ()` any non-null pointer. -/
abbrev ClientPtr : Type := Option Unit

/-- The host-supplied visitor type `LJCX_CursorVisitor`: it receives the
current cursor, the parent cursor and a client-data pointer, and returns a
continuation value. -/
def LJCX_CursorVisitor : Type :=
  CXCursor → CXCursor → ClientPtr → CXChildVisitResult

/-- One recorded invocation of a host callback: the arguments the
trampoline passed it.  Instrumentation of the embedding; the C code does
not record calls, but the trace makes "invokes the callback exactly once
with these arguments" a statement about a value. -/
structure CallbackCall where
  cursor : CXCursor
  parent : CXCursor
  clientData : ClientPtr
deriving DecidableEq, Repr

/-- `LJCX_CursorVisitorData` of ljclang_support.c in the canonical build
(`USE_KINDS_BITAR` not defined): just the registered callback. -/
structure LJCX_CursorVisitorData where
  visitor : LJCX_CursorVisitor

/-- The registry state of ljclang_support.c: the growable array
`g_cursorVisitors` together with `g_numVisitors`, modelled as a list whose
length is the visitor count. -/
structure RegState where
  visitors : List LJCX_CursorVisitorData

/-- `ourCursorVisitor` of ljclang_support.c (the handle-based trampoline):
if the cursor kind is at or beyond `NUM_KINDS` it returns
`CXChildVisit_Break` without calling the callback; otherwise it calls the
registered callback with the cursor, the parent and a `NULL` client-data
pointer and returns its result.  `numKinds` stands for the header constant
`NUM_KINDS = CXCursor_LastExtraDecl + 1`, whose numeric value comes from
the libclang header the build sees.  The second component is the trace of
callback invocations this trampoline call performed. -/
def ourCursorVisitorC (numKinds : Nat) (cvd : LJCX_CursorVisitorData)
    (cursor parent : CXCursor) : CXChildVisitResult × List CallbackCall :=
  if numKinds ≤ cursor.kind then
    (CXChildVisitResult.Break, [])
  else
    (cvd.visitor cursor parent none, [⟨cursor, parent, none⟩])

/-- `ourCursorVisitor` of ljclang_support.cpp (the pointer-passing
variant's trampoline): it always calls the supplied callback with the
cursor, the parent and a `NULL` client-data pointer and returns its
result. -/
def ourCursorVisitorCpp (visitor : LJCX_CursorVisitor)
    (cursor parent : CXCursor) : CXChildVisitResult × List CallbackCall :=
  (visitor cursor parent none, [⟨cursor, parent, none⟩])

/-- A concrete AST fragment: a node with its cursor and its children. -/
inductive Tree where
  | node : CXCursor → List Tree → Tree

/-- Modelled from the spec: the traversal core of the external libclang
function `clang_visitChildren` (not part of this repository).  It visits a
list of sibling subtrees under a given parent, invoking `f` on each node;
`Break` aborts the whole traversal, `Continue` moves to the next sibling,
`Recurse` first descends into the node's children.  Returns whether the
traversal was broken, and the concatenated callback-invocation trace. -/
def visitForest (f : CXCursor → CXCursor → CXChildVisitResult × List CallbackCall)
    (parent : CXCursor) : List Tree → Bool × List CallbackCall
  | [] => (false, [])
  | Tree.node c cs :: rest =>
    match f c parent with
    | (CXChildVisitResult.Break, calls) => (true, calls)
    | (CXChildVisitResult.Continue, calls) =>
      let r := visitForest f parent rest
      (r.1, calls ++ r.2)
    | (CXChildVisitResult.Recurse, calls) =>
      let r1 := visitForest f c cs
      if r1.1 then (true, calls ++ r1.2)
      else
        let r2 := visitForest f parent rest
        (r2.1, calls ++ r1.2 ++ r2.2)

/-- Modelled from the spec: the external libclang entry point
`clang_visitChildren(parent, visitor, clientData)`; visits the children of
`root` with `root`'s cursor as initial parent and returns nonzero
(`true`) exactly when some visitor invocation returned `Break`. -/
def clangVisitChildren
    (f : CXCursor → CXCursor → CXChildVisitResult × List CallbackCall) :
    Tree → Bool × List CallbackCall
  | Tree.node c cs => visitForest f c cs

/-- `ljclang_regCursorVisitor` of ljclang_support.c in the canonical build
(`USE_KINDS_BITAR` not defined).  `reallocOk` models the outcome of the
`realloc` call that grows `g_cursorVisitors`: on failure the function
returns `-1` and the state is untouched; on success the new record is
copied behind the existing entries and the old count is returned as the
handle, then the count is incremented. -/
def ljclang_regCursorVisitor (st : RegState) (visitor : LJCX_CursorVisitor)
    (kinds : List Nat) (numkinds : Int) (reallocOk : Bool) : RegState × Int :=
  -- UNUSED(kinds); UNUSED(numkinds);
  let _ := kinds
  let _ := numkinds
  if reallocOk then
    ({ visitors := st.visitors ++ [{ visitor := visitor }] },
     (st.visitors.length : Int))
  else
    (st, -1)

/-- The outcome of one `ljclang_visitChildren` call: the returned integer,
how many times the native entry point `clang_visitChildren` was invoked,
and the trace of host-callback invocations performed. -/
structure DispatchResult where
  ret : Int
  nativeCalls : Nat
  callbackCalls : List CallbackCall
deriving DecidableEq, Repr

/-- `ljclang_visitChildren` of ljclang_support.c: the C guard
`(unsigned)visitoridx >= g_numVisitors` rejects both negative indices
(whose unsigned image is huge) and too-large ones with `-1`, before any
native call; otherwise it runs `clang_visitChildren` with the trampoline
bound to `&g_cursorVisitors[visitoridx]` and returns 1 if the traversal
was broken, else 0. -/
def ljclang_visitChildren (numKinds : Nat) (st : RegState) (root : Tree)
    (visitoridx : Int) : DispatchResult :=
  if visitoridx < 0 then
    { ret := -1, nativeCalls := 0, callbackCalls := [] }
  else
    match st.visitors[visitoridx.toNat]? with
    | none => { ret := -1, nativeCalls := 0, callbackCalls := [] }
    | some cvd =>
      let r := clangVisitChildren (ourCursorVisitorC numKinds cvd) root
      { ret := if r.1 then 1 else 0, nativeCalls := 1, callbackCalls := r.2 }

/-- `ljclang_visitChildrenWith` of ljclang_support.cpp (the pointer-passing
entry point): no registry, no failure mode; the callback pointer itself is
the context value. -/
def ljclang_visitChildrenWith (root : Tree) (visitor : LJCX_CursorVisitor) :
    DispatchResult :=
  let r := clangVisitChildren (ourCursorVisitorCpp visitor) root
  { ret := if r.1 then 1 else 0, nativeCalls := 1, callbackCalls := r.2 }

/-- A sequence of successful registrations (every `realloc` succeeds),
returning the final state and the handles in the order issued.  The
`kinds` and `numkinds` arguments are irrelevant in the canonical build and
are passed as `[]` and `0`. -/
def regMany (st : RegState) : List LJCX_CursorVisitor → RegState × List Int
  | [] => (st, [])
  | v :: vs =>
    let r := ljclang_regCursorVisitor st v [] 0 true
    let rest := regMany r.1 vs
    (rest.1, r.2 :: rest.2)

/-!
Part 2: the typedef-synthesis subsystem (ljclang_getTypeDefs in
ljclang_support.cpp and in ljposix.cpp).
-/

/-- The compile-time resolution of `TypeString<T>::value`: for a platform
type name, the portable spelling of its true underlying representation as
the template specializations select it on the build platform.  A value of
this structure stands for one concrete platform. -/
structure TypeSpelling where
  spellingOf : String → String

/-- The `TypeDef(typeName)` macro of ljclang_support.cpp lines 53-54:
`std::string{"typedef "} + TypeString<time_t>::value + " " + #typeName + ";"`.
Note that the spelling is taken from `time_t` for every `typeName`. -/
def TypeDefSupport (p : TypeSpelling) (typeName : String) : String :=
  "typedef " ++ p.spellingOf "time_t" ++ " " ++ typeName ++ ";"

/-- The `TypeDef(typeName)` macro of ljposix.cpp lines 67-68:
`std::string{"typedef "} + TypeString<typeName>::value + " " + #typeName + ";"`. -/
def TypeDefPosix (p : TypeSpelling) (typeName : String) : String :=
  "typedef " ++ p.spellingOf typeName ++ " " ++ typeName ++ ";"

/-- The type names of ljclang_support.cpp's `ljclang_getTypeDefs`, in the
source's concatenation order (LJCLANG_USE_POSIX is defined to 1). -/
def supportTypeNames : List String :=
  ["time_t", "blkcnt_t", "blksize_t", "clock_t", "clockid_t", "dev_t",
   "fsblkcnt_t", "fsfilcnt_t", "gid_t", "id_t", "ino_t", "mode_t",
   "nlink_t", "off_t", "pid_t", "ssize_t", "suseconds_t", "timer_t",
   "uid_t", "nfds_t", "sigset_t"]

/-- The type names of ljposix.cpp's `ljclang_getTypeDefs`, in the source's
concatenation order. -/
def posixTypeNames : List String :=
  ["time_t", "blkcnt_t", "blksize_t", "clock_t", "clockid_t", "dev_t",
   "fsblkcnt_t", "fsfilcnt_t", "gid_t", "id_t", "ino_t", "mode_t",
   "nlink_t", "off_t", "pid_t", "ssize_t", "suseconds_t", "uid_t",
   "nfds_t", "sigset_t", "fd_set", "sa_family_t", "socklen_t"]

/-- The individual typedef statements ljclang_support.cpp concatenates. -/
def supportTypeDefStmts (p : TypeSpelling) : List String :=
  supportTypeNames.map (TypeDefSupport p)

/-- The individual typedef statements ljposix.cpp concatenates. -/
def posixTypeDefStmts (p : TypeSpelling) : List String :=
  posixTypeNames.map (TypeDefPosix p)

/-- The string the first call of ljclang_support.cpp's
`ljclang_getTypeDefs` constructs. -/
def buildTypeDefsSupport (p : TypeSpelling) : String :=
  String.join (supportTypeDefStmts p)

/-- The string the first call of ljposix.cpp's `ljclang_getTypeDefs`
constructs. -/
def buildTypeDefsPosix (p : TypeSpelling) : String :=
  String.join (posixTypeDefStmts p)

/-- `ljclang_getTypeDefs` of ljclang_support.cpp: a function-local
`static const std::string` is built on the first call and returned by
pointer on every call.  The `Option String` argument and result model the
hidden static: `none` before the first call, `some s` afterwards. -/
def ljclang_getTypeDefsSupport (p : TypeSpelling) (cache : Option String) :
    String × Option String :=
  match cache with
  | some s => (s, some s)
  | none =>
    let s := buildTypeDefsSupport p
    (s, some s)

/-- `ljclang_getTypeDefs` of ljposix.cpp, with the same function-local
static caching. -/
def ljclang_getTypeDefsPosix (p : TypeSpelling) (cache : Option String) :
    String × Option String :=
  match cache with
  | some s => (s, some s)
  | none =>
    let s := buildTypeDefsPosix p
    (s, some s)

/-- A concrete platform in the style of glibc on x86-64 Linux: `time_t`
is `long` = `int64_t` while the identifier types (`gid_t`, `uid_t`, ...)
are `uint32_t`. -/
def linuxSpelling : TypeSpelling :=
  { spellingOf := fun n =>
      if n = "gid_t" ∨ n = "uid_t" ∨ n = "id_t" ∨ n = "mode_t" ∨ n = "socklen_t" then
        "uint32_t"
      else if n = "pid_t" ∨ n = "clockid_t" then "int32_t"
      else if n = "dev_t" ∨ n = "ino_t" ∨ n = "nlink_t" ∨ n = "fsblkcnt_t"
              ∨ n = "fsfilcnt_t" ∨ n = "nfds_t" then "uint64_t"
      else if n = "sa_family_t" then "unsigned short"
      else "int64_t" }

/-!
Part 3: the compile-time layout checks of ljposix.cpp (synthesized opaque
structs for `sigset_t` and `fd_set`, shadow structs for `timeval`,
`timespec` and `pollfd`, and the `static_assert`s guarding them).
-/

/-- Sizes and alignments of the platform types ljposix.cpp inspects with
`sizeof`/`alignof`, one value of this structure per build platform. -/
structure PosixPlatform where
  sizeofSigset : Nat
  alignofSigset : Nat
  sizeofFdset : Nat
  alignofFdset : Nat
  sizeofFdmask : Nat
  alignofFdmask : Nat
  fdSetSize : Nat
  sizeofTime : Nat
  alignofTime : Nat
  sizeofSuseconds : Nat
  alignofSuseconds : Nat
  sizeofLong : Nat
  alignofLong : Nat
  sizeofInt : Nat
  alignofInt : Nat
  sizeofShort : Nat
  alignofShort : Nat
  sizeofTimeval : Nat
  sizeofTimespec : Nat
  sizeofPollfd : Nat

/-- Round `n` up to the next multiple of `a` (C object layout padding). -/
def alignUp (n a : Nat) : Nat :=
  if a = 0 then n else a * ((n + a - 1) / a)

/-- The end offset after laying out the fields (size, alignment) of a C
struct in order: each field starts at its alignment, then occupies its
size. -/
def structEnd (off : Nat) : List (Nat × Nat) → Nat
  | [] => off
  | f :: rest => structEnd (alignUp off f.2 + f.1) rest

/-- The alignment of a C struct: the maximum alignment of its fields. -/
def structAlignOf (fields : List (Nat × Nat)) : Nat :=
  fields.foldl (fun a f => max a f.2) 1

/-- `sizeof` of a C struct with the given fields: the end offset padded to
the struct alignment. -/
def structSizeOf (fields : List (Nat × Nat)) : Nat :=
  alignUp (structEnd 0 fields) (structAlignOf fields)

/-- `sizeof` of the synthesized `sigset_t` replacement of ljposix.cpp
lines 50-52: `struct { uint8_t bytes_[sizeof(sigset_t)]; }` carrying
`__attribute__((aligned(alignof(sigset_t))))`; a `uint8_t` array has
alignment 1 and the attribute raises the struct alignment, which pads
`sizeof` to a multiple of it. -/
def sigsetStructSize (p : PosixPlatform) : Nat :=
  alignUp p.sizeofSigset p.alignofSigset

/-- Declared alignment of the synthesized `sigset_t` replacement. -/
def sigsetStructAlign (p : PosixPlatform) : Nat :=
  p.alignofSigset

/-- `sizeof` of the synthesized `fd_set` replacement of ljposix.cpp
lines 61-62: `struct { long int bytes_[sizeof(fd_set) / sizeof(fd_mask)]; }`
with `fd_mask` being `long int`. -/
def fdsetStructSize (p : PosixPlatform) : Nat :=
  alignUp (p.sizeofFdset / p.sizeofFdmask * p.sizeofFdmask) p.alignofFdmask

/-- Declared alignment of the synthesized `fd_set` replacement: that of
its `long int` array member. -/
def fdsetStructAlign (p : PosixPlatform) : Nat :=
  p.alignofFdmask

/-- `sizeof(Check::timeval)` for the shadow struct of ljposix.cpp lines
133-136, which holds exactly a `time_t` and a `suseconds_t` field. -/
def shadowTimevalSize (p : PosixPlatform) : Nat :=
  structSizeOf [(p.sizeofTime, p.alignofTime), (p.sizeofSuseconds, p.alignofSuseconds)]

/-- `sizeof(Check::timespec)` for the shadow struct of ljposix.cpp lines
138-141, which holds exactly a `time_t` and a `long` field. -/
def shadowTimespecSize (p : PosixPlatform) : Nat :=
  structSizeOf [(p.sizeofTime, p.alignofTime), (p.sizeofLong, p.alignofLong)]

/-- `sizeof(Check::pollfd)` for the shadow struct of ljposix.cpp lines
143-147, which holds exactly an `int` and two `short` fields. -/
def shadowPollfdSize (p : PosixPlatform) : Nat :=
  structSizeOf [(p.sizeofInt, p.alignofInt), (p.sizeofShort, p.alignofShort),
                (p.sizeofShort, p.alignofShort)]

/-- The six `static_assert`s of ljposix.cpp: lines 58-59 (the `fd_mask`
assumptions behind the synthesized `fd_set`), line 108 (`FD_SETSIZE`),
and lines 154-156 (the shadow-struct size checks).  The native build
compiles exactly when all of them hold. -/
def ljposixStaticAsserts (p : PosixPlatform) : Prop :=
  p.alignofFdset = p.alignofFdmask ∧
  p.sizeofFdset % p.sizeofFdmask = 0 ∧
  p.fdSetSize = 8 * p.sizeofFdset ∧
  shadowTimevalSize p = p.sizeofTimeval ∧
  shadowTimespecSize p = p.sizeofTimespec ∧
  shadowPollfdSize p = p.sizeofPollfd

instance (p : PosixPlatform) : Decidable (ljposixStaticAsserts p) :=
  inferInstanceAs (Decidable (_ ∧ _))

/-- Facts every C platform guarantees about the types involved: positive
alignments, and `sizeof` a multiple of `alignof` for `sigset_t` and for
`fd_mask` elements. -/
def abiSane (p : PosixPlatform) : Prop :=
  0 < p.alignofSigset ∧ p.alignofSigset ∣ p.sizeofSigset ∧
  0 < p.alignofFdmask ∧ p.alignofFdmask ∣ p.sizeofFdmask ∧
  0 < p.sizeofFdmask

instance (p : PosixPlatform) : Decidable (abiSane p) :=
  inferInstanceAs (Decidable (_ ∧ _))

/-- glibc on x86-64 Linux: `sigset_t` is 128 bytes aligned 8, `fd_set`
is 128 bytes aligned 8 with 8-byte `fd_mask`, `FD_SETSIZE` is 1024, and
`timeval`/`timespec`/`pollfd` have sizes 16/16/8. -/
def linuxPlatform : PosixPlatform :=
  { sizeofSigset := 128, alignofSigset := 8
    sizeofFdset := 128, alignofFdset := 8
    sizeofFdmask := 8, alignofFdmask := 8
    fdSetSize := 1024
    sizeofTime := 8, alignofTime := 8
    sizeofSuseconds := 8, alignofSuseconds := 8
    sizeofLong := 8, alignofLong := 8
    sizeofInt := 4, alignofInt := 4
    sizeofShort := 2, alignofShort := 2
    sizeofTimeval := 16, sizeofTimespec := 16, sizeofPollfd := 8 }

/-!
Theorems for the claims.
-/

/-- C4: if the storage-growth step fails (`realloc` returns `NULL`),
`ljclang_regCursorVisitor` returns `-1` and the registry is unchanged: the
visitor count is not incremented and every previously registered entry is
still present at its index, so every previously issued handle resolves to
its original callback. -/
theorem ljclang_C4 (st : RegState) (v : LJCX_CursorVisitor)
    (kinds : List Nat) (numkinds : Int) :
    ljclang_regCursorVisitor st v kinds numkinds false = (st, -1) ∧
    (ljclang_regCursorVisitor st v kinds numkinds false).1.visitors.length
      = st.visitors.length ∧
    ∀ i : Nat,
      (ljclang_regCursorVisitor st v kinds numkinds false).1.visitors[i]?
        = st.visitors[i]? :=
  ⟨rfl, rfl, fun _ => rfl⟩

/-- C10: in the canonical build (`USE_KINDS_BITAR` not defined) the result
of `ljclang_regCursorVisitor` does not depend on `kinds` or `numkinds`;
it returns a negative value exactly when the growth step fails, that value
is always `-1` and never the documented `-2`, and on success the handle is
the previous visitor count. -/
theorem ljclang_C10 (st : RegState) (v : LJCX_CursorVisitor)
    (kinds1 kinds2 : List Nat) (numkinds1 numkinds2 : Int) (reallocOk : Bool) :
    ljclang_regCursorVisitor st v kinds1 numkinds1 reallocOk
      = ljclang_regCursorVisitor st v kinds2 numkinds2 reallocOk ∧
    ljclang_regCursorVisitor st v kinds1 numkinds1 false = (st, -1) ∧
    (ljclang_regCursorVisitor st v kinds1 numkinds1 true).2
      = (st.visitors.length : Int) ∧
    ((ljclang_regCursorVisitor st v kinds1 numkinds1 reallocOk).2 < 0
      ↔ reallocOk = false) ∧
    (ljclang_regCursorVisitor st v kinds1 numkinds1 reallocOk).2 ≠ -2 := by
  cases reallocOk <;>
    refine ⟨rfl, rfl, rfl, ?_, ?_⟩ <;>
    simp [ljclang_regCursorVisitor]

/-- C8: both `ljclang_getTypeDefs` accessors are idempotent and cached:
from any cache state, a second call returns the same string and the same
cache as the first, and the string built on a fresh first call is the
fixed-order concatenation of the typedef statements. -/
theorem ljclang_C8 (p : TypeSpelling) (cache : Option String) :
    (ljclang_getTypeDefsSupport p (ljclang_getTypeDefsSupport p cache).2).1
      = (ljclang_getTypeDefsSupport p cache).1 ∧
    (ljclang_getTypeDefsSupport p (ljclang_getTypeDefsSupport p cache).2).2
      = (ljclang_getTypeDefsSupport p cache).2 ∧
    (ljclang_getTypeDefsSupport p none).1 = buildTypeDefsSupport p ∧
    (ljclang_getTypeDefsPosix p (ljclang_getTypeDefsPosix p cache).2).1
      = (ljclang_getTypeDefsPosix p cache).1 ∧
    (ljclang_getTypeDefsPosix p (ljclang_getTypeDefsPosix p cache).2).2
      = (ljclang_getTypeDefsPosix p cache).2 ∧
    (ljclang_getTypeDefsPosix p none).1 = buildTypeDefsPosix p := by
  cases cache <;> exact ⟨rfl, rfl, rfl, rfl, rfl, rfl⟩

/-- C9: whenever either trampoline invokes a registered callback, the
client-data argument it passes is the `NULL` pointer. -/
theorem ljclang_C9 (numKinds : Nat) (cvd : LJCX_CursorVisitorData)
    (v : LJCX_CursorVisitor) (c par : CXCursor) (call : CallbackCall)
    (h : call ∈ (ourCursorVisitorC numKinds cvd c par).2 ∨
         call ∈ (ourCursorVisitorCpp v c par).2) :
    call.clientData = none := by
  rcases h with h | h
  · unfold ourCursorVisitorC at h
    by_cases hk : numKinds ≤ c.kind
    · simp [hk] at h
    · simp [hk] at h
      subst h
      rfl
  · unfold ourCursorVisitorCpp at h
    simp at h
    subst h
    rfl

/-- Witness for C9 at a concrete trampoline invocation. -/
theorem ljclang_C9_witness :
    (⟨⟨0, 0⟩, ⟨1, 1⟩, none⟩ : CallbackCall).clientData = none :=
  ljclang_C9 604 ⟨fun _ _ _ => CXChildVisitResult.Continue⟩
    (fun _ _ _ => CXChildVisitResult.Continue) ⟨0, 0⟩ ⟨1, 1⟩
    ⟨⟨0, 0⟩, ⟨1, 1⟩, none⟩ (Or.inl (by decide))

/-- C2 fails as stated: with `NUM_KINDS = 604`, on a cursor of kind 604
the handle-based trampoline returns `Break` with an empty invocation
trace, although the supplied callback returns `Recurse`; so the trampoline
skipped the callback and substituted a continuation value. -/
theorem ljclang_C2_counterexample :
    ourCursorVisitorC 604 ⟨fun _ _ _ => CXChildVisitResult.Recurse⟩ ⟨604, 1⟩ ⟨0, 0⟩
        = (CXChildVisitResult.Break, []) ∧
    (fun (_ _ : CXCursor) (_ : ClientPtr) => CXChildVisitResult.Recurse)
        ⟨604, 1⟩ ⟨0, 0⟩ none = CXChildVisitResult.Recurse ∧
    (CXChildVisitResult.Break, ([] : List CallbackCall)) ≠
      (CXChildVisitResult.Recurse,
       [(⟨⟨604, 1⟩, ⟨0, 0⟩, none⟩ : CallbackCall)]) :=
  ⟨rfl, rfl, by decide⟩

/-- C2 amended: the pointer-passing trampoline always invokes the callback
exactly once with the current node, its parent and `NULL`, and returns its
continuation value unchanged; the handle-based trampoline does the same
for every node whose cursor kind is below `NUM_KINDS`, and for a node
whose kind is at or beyond `NUM_KINDS` it invokes no callback and returns
`Break` to the native traversal API. -/
theorem ljclang_C2_amended :
    (∀ (v : LJCX_CursorVisitor) (c par : CXCursor),
        ourCursorVisitorCpp v c par = (v c par none, [⟨c, par, none⟩])) ∧
    (∀ (numKinds : Nat) (cvd : LJCX_CursorVisitorData) (c par : CXCursor),
        (c.kind < numKinds →
          ourCursorVisitorC numKinds cvd c par
            = (cvd.visitor c par none, [⟨c, par, none⟩])) ∧
        (numKinds ≤ c.kind →
          ourCursorVisitorC numKinds cvd c par
            = (CXChildVisitResult.Break, []))) := by
  refine ⟨fun v c par => rfl,
          fun numKinds cvd c par => ⟨fun h => ?_, fun h => ?_⟩⟩
  · unfold ourCursorVisitorC
    rw [if_neg (by omega)]
  · unfold ourCursorVisitorC
    rw [if_pos h]

/-- Witness for the amended C2 at a concrete in-range node. -/
theorem ljclang_C2_witness :
    ourCursorVisitorC 604 ⟨fun _ _ _ => CXChildVisitResult.Recurse⟩ ⟨10, 0⟩ ⟨0, 1⟩
      = (CXChildVisitResult.Recurse, [⟨⟨10, 0⟩, ⟨0, 1⟩, none⟩]) :=
  (ljclang_C2_amended.2 604 ⟨fun _ _ _ => CXChildVisitResult.Recurse⟩
    ⟨10, 0⟩ ⟨0, 1⟩).1 (by decide)

/-- C5: dispatching on any out-of-range index, negative values included,
returns `-1` with zero native-traversal calls and zero callback
invocations; on any in-range index the native traversal entry point is
invoked (exactly once). -/
theorem ljclang_C5 (numKinds : Nat) (st : RegState) (root : Tree) (idx : Int) :
    (idx < 0 ∨ (st.visitors.length : Int) ≤ idx →
      ljclang_visitChildren numKinds st root idx
        = { ret := -1, nativeCalls := 0, callbackCalls := [] }) ∧
    (0 ≤ idx → idx < (st.visitors.length : Int) →
      (ljclang_visitChildren numKinds st root idx).nativeCalls = 1) := by
  constructor
  · rintro (h | h)
    · unfold ljclang_visitChildren
      rw [if_pos h]
    · unfold ljclang_visitChildren
      rw [if_neg (by omega)]
      rw [List.getElem?_eq_none (by omega)]
  · intro h0 hlt
    unfold ljclang_visitChildren
    rw [if_neg (by omega)]
    rw [List.getElem?_eq_getElem (by omega : idx.toNat < st.visitors.length)]

/-- Witness for C5: a registry holding one visitor rejects index 999 and
performs one native call for index 0. -/
theorem ljclang_C5_witness :
    ljclang_visitChildren 604 ⟨[⟨fun _ _ _ => CXChildVisitResult.Continue⟩]⟩
        (Tree.node ⟨0, 0⟩ []) 999
      = { ret := -1, nativeCalls := 0, callbackCalls := [] } ∧
    (ljclang_visitChildren 604 ⟨[⟨fun _ _ _ => CXChildVisitResult.Continue⟩]⟩
        (Tree.node ⟨0, 0⟩ []) 0).nativeCalls = 1 :=
  ⟨(ljclang_C5 604 ⟨[⟨fun _ _ _ => CXChildVisitResult.Continue⟩]⟩
      (Tree.node ⟨0, 0⟩ []) 999).1 (Or.inr (by decide)),
   (ljclang_C5 604 ⟨[⟨fun _ _ _ => CXChildVisitResult.Continue⟩]⟩
      (Tree.node ⟨0, 0⟩ []) 0).2 (by decide) (by decide)⟩

/-- Characterization of a run of successful registrations: the final
array is the old one extended in order, and the issued handles count up
from the old visitor count. -/
theorem regMany_spec (vs : List LJCX_CursorVisitor) (st : RegState) :
    regMany st vs =
      ({ visitors := st.visitors ++ vs.map (fun v => { visitor := v }) },
       (List.range vs.length).map
         (fun i => ((st.visitors.length + i : Nat) : Int))) := by
  induction vs generalizing st with
  | nil => simp [regMany]
  | cons v vs ih =>
    have h1 : regMany st (v :: vs)
        = ((regMany { visitors := st.visitors ++ [{ visitor := v }] } vs).1,
           (st.visitors.length : Int)
             :: (regMany { visitors := st.visitors ++ [{ visitor := v }] } vs).2) := rfl
    rw [h1, ih]
    simp only [List.length_append, List.length_cons, List.length_nil,
               List.map_cons, List.range_succ_eq_map, List.map_map,
               Prod.mk.injEq]
    refine ⟨by rw [List.append_assoc]; rfl, ?_⟩
    refine congrArg₂ List.cons (by simp) ?_
    refine List.map_congr_left fun i _ => ?_
    simp only [Function.comp_apply]
    omega

/-- A visitor that always continues into children. -/
def cbContinue : LJCX_CursorVisitor := fun _ _ _ => CXChildVisitResult.Continue

/-- A visitor that always aborts the traversal. -/
def cbBreak : LJCX_CursorVisitor := fun _ _ _ => CXChildVisitResult.Break

/-- C3: after any sequence of successful registrations on top of any
starting registry, the issued handles are pairwise distinct and strictly
increasing in the order issued, and dispatching on the handle issued for
the i-th registration runs the native traversal with the trampoline bound
to exactly that callback, later registrations notwithstanding. -/
theorem ljclang_C3 (st : RegState) (vs : List LJCX_CursorVisitor) :
    (regMany st vs).2.Pairwise (· < ·) ∧
    ∀ (i : Nat) (v : LJCX_CursorVisitor) (numKinds : Nat) (root : Tree),
      vs[i]? = some v →
      ((regMany st vs).2)[i]? = some ((st.visitors.length + i : Nat) : Int) ∧
      ljclang_visitChildren numKinds (regMany st vs).1 root
          ((st.visitors.length + i : Nat) : Int)
        = { ret := if (clangVisitChildren
                        (ourCursorVisitorC numKinds { visitor := v }) root).1
                   then 1 else 0,
            nativeCalls := 1,
            callbackCalls := (clangVisitChildren
                        (ourCursorVisitorC numKinds { visitor := v }) root).2 } := by
  rw [regMany_spec]
  constructor
  · refine (List.pairwise_map).2 ?_
    refine (List.pairwise_lt_range vs.length).imp ?_
    intro a b hab
    omega
  · intro i v numKinds root hv
    have hi : i < vs.length := by
      by_contra hc
      rw [List.getElem?_eq_none (by omega)] at hv
      exact Option.noConfusion hv
    refine ⟨by rw [List.getElem?_map, List.getElem?_range hi]; rfl, ?_⟩
    unfold ljclang_visitChildren
    rw [if_neg (by omega)]
    have ht : (((st.visitors.length + i : Nat) : Int)).toNat
        = st.visitors.length + i := Int.toNat_natCast _
    rw [ht]
    have hes : ({ visitors := st.visitors ++ vs.map (fun v => { visitor := v }) }
          : RegState).visitors
        = st.visitors ++ vs.map (fun v => { visitor := v }) := rfl
    rw [hes, List.getElem?_append_right (by omega)]
    have hsub : st.visitors.length + i - st.visitors.length = i := by omega
    rw [hsub, List.getElem?_map, hv]
    rfl

/-- Witness for C3: two registrations in a fresh registry; the second
handle is 1 and dispatching on it runs the traversal with the second
callback. -/
theorem ljclang_C3_witness :
    ((regMany { visitors := [] } [cbContinue, cbBreak]).2)[1]?
        = some ((0 + 1 : Nat) : Int) ∧
    ljclang_visitChildren 604 (regMany { visitors := [] } [cbContinue, cbBreak]).1
        (Tree.node ⟨0, 0⟩ []) ((0 + 1 : Nat) : Int)
      = { ret := if (clangVisitChildren
                      (ourCursorVisitorC 604 { visitor := cbBreak })
                      (Tree.node ⟨0, 0⟩ [])).1
                 then 1 else 0,
          nativeCalls := 1,
          callbackCalls := (clangVisitChildren
                      (ourCursorVisitorC 604 { visitor := cbBreak })
                      (Tree.node ⟨0, 0⟩ [])).2 } :=
  (ljclang_C3 { visitors := [] } [cbContinue, cbBreak]).2 1 cbBreak 604
    (Tree.node ⟨0, 0⟩ []) rfl

/-- C1 fails on ljclang_support.cpp: its `TypeDef` macro spells every
typedef with `TypeString<time_t>::value`, so on a platform where `time_t`
is `int64_t` and `gid_t` is `uint32_t` the block contains
`typedef int64_t gid_t;` — the spelling of `time_t`, not of `gid_t`'s own
underlying type.  The `TypeDef` macro of ljposix.cpp uses
`TypeString<typeName>::value` and emits the right statement. -/
theorem ljclang_C1_bug :
    TypeDefSupport linuxSpelling "gid_t" = "typedef int64_t gid_t;" ∧
    linuxSpelling.spellingOf "gid_t" = "uint32_t" ∧
    TypeDefSupport linuxSpelling "gid_t"
      ≠ "typedef " ++ linuxSpelling.spellingOf "gid_t" ++ " gid_t;" ∧
    "typedef int64_t gid_t;" ∈ supportTypeDefStmts linuxSpelling ∧
    TypeDefPosix linuxSpelling "gid_t" = "typedef uint32_t gid_t;" := by
  exact ⟨by decide, by decide, by decide, by decide, by decide⟩

/-- Rounding to a multiple is the identity on multiples. -/
theorem alignUp_eq_of_dvd {n a : Nat} (h : a ∣ n) (ha : 0 < a) :
    alignUp n a = n := by
  obtain ⟨k, rfl⟩ := h
  unfold alignUp
  rw [if_neg (by omega)]
  have h1 : a * k + a - 1 = a * k + (a - 1) := by omega
  rw [h1, Nat.mul_add_div ha]
  rw [Nat.div_eq_of_lt (by omega), Nat.add_zero]

/-- C6: on any platform satisfying the C ABI guarantees, whenever the
`static_assert`s of ljposix.cpp hold (that is, whenever the native build
compiles), the synthesized `sigset_t` and `fd_set` struct declarations
have exactly the size and the declared alignment of the real platform
types; a platform breaking the `fd_mask` assumptions is rejected by the
assertions at build time instead. -/
theorem ljclang_C6 (p : PosixPlatform) (hs : abiSane p)
    (ha : ljposixStaticAsserts p) :
    sigsetStructSize p = p.sizeofSigset ∧
    sigsetStructAlign p = p.alignofSigset ∧
    fdsetStructSize p = p.sizeofFdset ∧
    fdsetStructAlign p = p.alignofFdset := by
  obtain ⟨hps, hds, hpm, hdm, hsm⟩ := hs
  obtain ⟨ha1, ha2, -⟩ := ha
  have hmd : p.sizeofFdmask ∣ p.sizeofFdset := Nat.dvd_of_mod_eq_zero ha2
  refine ⟨alignUp_eq_of_dvd hds hps, rfl, ?_, ha1.symm⟩
  unfold fdsetStructSize
  rw [Nat.div_mul_cancel hmd]
  exact alignUp_eq_of_dvd (dvd_trans hdm hmd) hpm

/-- Witness for C6 on the x86-64 Linux platform values. -/
theorem ljclang_C6_witness :
    sigsetStructSize linuxPlatform = linuxPlatform.sizeofSigset ∧
    sigsetStructAlign linuxPlatform = linuxPlatform.alignofSigset ∧
    fdsetStructSize linuxPlatform = linuxPlatform.sizeofFdset ∧
    fdsetStructAlign linuxPlatform = linuxPlatform.alignofFdset :=
  ljclang_C6 linuxPlatform (by decide) (by decide)

/-- C7: the shadow structs of ljposix.cpp hold exactly the portably
promised fields, and the build carries a compile-time assertion equating
each shadow struct's size with the real struct's size — so when the build
compiles the sizes agree, and a platform struct whose extra fields change
its size fails the corresponding assertion. -/
theorem ljclang_C7 (p : PosixPlatform) :
    (ljposixStaticAsserts p →
      shadowTimevalSize p = p.sizeofTimeval ∧
      shadowTimespecSize p = p.sizeofTimespec ∧
      shadowPollfdSize p = p.sizeofPollfd) ∧
    (shadowTimevalSize p ≠ p.sizeofTimeval → ¬ ljposixStaticAsserts p) ∧
    (shadowTimespecSize p ≠ p.sizeofTimespec → ¬ ljposixStaticAsserts p) ∧
    (shadowPollfdSize p ≠ p.sizeofPollfd → ¬ ljposixStaticAsserts p) := by
  refine ⟨fun h => ⟨h.2.2.2.1, h.2.2.2.2.1, h.2.2.2.2.2⟩, ?_, ?_, ?_⟩
  · exact fun hne ha => hne ha.2.2.2.1
  · exact fun hne ha => hne ha.2.2.2.2.1
  · exact fun hne ha => hne ha.2.2.2.2.2

/-- Witness for C7 on the x86-64 Linux platform values. -/
theorem ljclang_C7_witness :
    shadowTimevalSize linuxPlatform = linuxPlatform.sizeofTimeval ∧
    shadowTimespecSize linuxPlatform = linuxPlatform.sizeofTimespec ∧
    shadowPollfdSize linuxPlatform = linuxPlatform.sizeofPollfd :=
  (ljclang_C7 linuxPlatform).1 (by decide)

end LJClang
